import Mathlib

/-!
A shallow embedding of `scripts/check_data_health.py` (`DataHealthChecker`):
the four data-quality checks, the aggregate runner `check_data`, the
constructor argument validation and the qlib-data loader fallback chain.

Modelling conventions:
* A pandas DataFrame holding one instrument's series is a `DataFrame`:
  a date index (strings, as produced by `strftime` on the datetime level of
  the qlib MultiIndex) plus named columns of nullable rationals
  (`none` models a NaN/null cell).
* The dict `self.data` (keyed by filename/instrument) is a `Store`,
  an association list; dict semantics make the keys distinct, which theorems
  take as a `Nodup` hypothesis where it matters.
* Fallible pandas operations are embedded in `Except String`:
  indexing `df.isnull().sum()[c]` on an absent column raises `KeyError`, and
  `pd.DataFrame(d)` on lists of unequal length raises `ValueError`; both are
  modelled as `.error` results carrying the message.
* The call `Series.pct_change(fill_method=None)` is `pct_change_list`: the
  first entry and any entry one of whose two operands is null are `none`.
  A zero previous value (pandas: ±inf or NaN) is also modelled as `none`;
  no theorem below depends on a zero denominator.
-/

namespace DataHealth

/-- One instrument's table: a date index plus named nullable columns. -/
structure DataFrame where
  dates : List String
  cols : List (String × List (Option ℚ))
deriving DecidableEq

/-- Mapping from instrument identifier to its table (the dict `self.data`). -/
abbrev Store := List (String × DataFrame)

/-- Column lookup, `df[c]`. -/
def getCol (df : DataFrame) (c : String) : Option (List (Option ℚ)) :=
  (df.cols.find? (fun p => p.1 == c)).map Prod.snd

/-- Python's `c in df.columns`. -/
def hasCol (df : DataFrame) (c : String) : Bool :=
  (getCol df c).isSome

/-- Null count of one column, `series.isnull().sum()`. -/
def nullCount (vals : List (Option ℚ)) : ℕ :=
  vals.countP (fun v => v.isNone)

/-- Python's `series.isnull().all()`. -/
def allNull (vals : List (Option ℚ)) : Bool :=
  vals.all (fun v => v.isNone)

/-- Substring test on character lists (Python's `needle in haystack`). -/
def strContainsAux (needle : List Char) : List Char → Bool
  | [] => needle.isEmpty
  | c :: rest => ((c :: rest).take needle.length == needle) || strContainsAux needle rest

/-- Python's substring operator `needle in hay` on strings. -/
def strContains (hay needle : String) : Bool :=
  strContainsAux needle.data hay.data

/-- Absolute value on rationals, as pandas `.abs()` acts on a float. -/
def absQ (q : ℚ) : ℚ :=
  if q < 0 then -q else q

/-- The five required OHLCV column names, in the order the code iterates them. -/
def required_ohlcv : List String :=
  ["open", "high", "low", "close", "volume"]

/-- Python's `all(column in df.columns for column in required_columns)`. -/
def has_all_ohlcv (df : DataFrame) : Bool :=
  required_ohlcv.all (fun c => hasCol df c)

/-! ## check_missing_data -/

/-- Line 116: the columns whose null count exceeds `missing_data_num`
(note: over ALL columns of the frame, not only OHLCV). -/
def missing_data_columns (df : DataFrame) (tol : ℕ) : List String :=
  (df.cols.filter (fun p => decide (tol < nullCount p.2))).map Prod.fst

/-- One row of the missing-data finding table (lines 107-114). -/
structure MissingRow where
  instrument : String
  openNulls : ℕ
  highNulls : ℕ
  lowNulls : ℕ
  closeNulls : ℕ
  volumeNulls : ℕ
deriving DecidableEq

/-- Lookup `df.isnull().sum()[c]`: raises `KeyError` when column `c` is
absent. -/
def nullCountFor (df : DataFrame) (c : String) : Except String ℕ :=
  match getCol df c with
  | some vals => .ok (nullCount vals)
  | none => .error ("KeyError: " ++ c)

/-- Lines 118-123: the five per-column lookups for one flagged instrument,
performed in source order; the first absent column raises. -/
def md_row (f : String) (df : DataFrame) : Except String MissingRow :=
  match nullCountFor df "open" with
  | .error e => .error e
  | .ok o =>
    match nullCountFor df "high" with
    | .error e => .error e
    | .ok h =>
      match nullCountFor df "low" with
      | .error e => .error e
      | .ok l =>
        match nullCountFor df "close" with
        | .error e => .error e
        | .ok c =>
          match nullCountFor df "volume" with
          | .error e => .error e
          | .ok v => .ok ⟨f, o, h, l, c, v⟩

/-- The loop of lines 115-123, producing the rows of `result_dict`. -/
def md_rows : Store → ℕ → Except String (List MissingRow)
  | [], _ => .ok []
  | (f, df) :: rest, tol =>
    if 0 < (missing_data_columns df tol).length then
      match md_row f df with
      | .error e => .error e
      | .ok r =>
        match md_rows rest tol with
        | .error e => .error e
        | .ok rs => .ok (r :: rs)
    else md_rows rest tol

/-- The check `check_missing_data` (lines 105-130); a `none` result models
returning `None`. -/
def check_missing_data (store : Store) (tol : ℕ) : Except String (Option (List MissingRow)) :=
  match md_rows store tol with
  | .error e => .error e
  | .ok rows => .ok (if rows.isEmpty then none else some rows)

/-! ## check_large_step_changes -/

/-- One row of the large-step finding table (lines 134-139). -/
structure LSRow where
  instrument : String
  col_name : String
  date : String
  pct_change : ℚ
deriving DecidableEq

/-- One entry of `pct_change(fill_method=None).abs()`. -/
def pct_step (prev cur : Option ℚ) : Option ℚ :=
  match prev, cur with
  | some a, some b => if a = 0 then none else some (absQ (b / a - 1))
  | _, _ => none

/-- Tail of the pct-change series, given the previous cell. -/
def pct_change_aux : Option ℚ → List (Option ℚ) → List (Option ℚ)
  | _, [] => []
  | prev, cur :: rest => pct_step prev cur :: pct_change_aux cur rest

/-- The series `df[col].pct_change(fill_method=None).abs()`: the first
observation has no defined change. -/
def pct_change_list : List (Option ℚ) → List (Option ℚ)
  | [] => []
  | v :: rest => none :: pct_change_aux v rest

/-- Pandas `series.max()`: NaN entries are skipped; `none` when every entry
is NaN. -/
def maxOpt (l : List (Option ℚ)) : Option ℚ :=
  (l.filterMap id).max?

/-- A nullable value strictly above a threshold (NaN compares false). -/
def optGT (v : Option ℚ) (thr : ℚ) : Bool :=
  match v with
  | some x => decide (thr < x)
  | none => false

/-- The inner loop of lines 142-152 over the five OHLCV columns of one
instrument.  Indexing `large_steps.index.to_list()[0]` on an empty selection
would raise `IndexError`; that branch is unreachable because the guard
`pct_change.max() > threshold` ensures a step above threshold exists. -/
def ls_cols (f : String) (df : DataFrame) (thrP thrV : ℚ) :
    List String → Except String (List LSRow)
  | [] => .ok []
  | col :: cols =>
    match getCol df col with
    | none => ls_cols f df thrP thrV cols
    | some vals =>
      let pct := pct_change_list vals
      let threshold := if col == "volume" then thrV else thrP
      match maxOpt pct with
      | none => ls_cols f df thrP thrV cols
      | some m =>
        if threshold < m then
          match ((df.dates.zip pct).filter (fun p => optGT p.2 threshold)).head? with
          | none => .error "IndexError"
          | some d =>
            match ls_cols f df thrP thrV cols with
            | .error e => .error e
            | .ok rs => .ok (⟨f, col, d.1, m⟩ :: rs)
        else ls_cols f df thrP thrV cols

/-- The outer loop of lines 140-152 over the store. -/
def ls_files : Store → ℚ → ℚ → Except String (List LSRow)
  | [], _, _ => .ok []
  | (f, df) :: rest, thrP, thrV =>
    match ls_cols f df thrP thrV required_ohlcv with
    | .error e => .error e
    | .ok a =>
      match ls_files rest thrP thrV with
      | .error e => .error e
      | .ok b => .ok (a ++ b)

/-- The check `check_large_step_changes` (lines 132-159). -/
def check_large_step_changes (store : Store) (thrP thrV : ℚ) :
    Except String (Option (List LSRow)) :=
  match ls_files store thrP thrV with
  | .error e => .error e
  | .ok rows => .ok (if rows.isEmpty then none else some rows)

/-! ## check_required_columns -/

/-- One row of the required-columns finding table, as `pd.DataFrame` would
pair `result_dict["instruments"][i]` with `result_dict["missing_col"][i]`. -/
structure ReqRow where
  instrument : String
  missing_col : String
deriving DecidableEq

/-- Lines 168-172: the two parallel lists of `result_dict`.  Note the
asymmetry faithful to the source: one `instruments` entry per flagged file,
but `missing_col += missing_required_columns` appends every missing name. -/
def rc_lists : Store → List String × List String
  | [] => ([], [])
  | (f, df) :: rest =>
    let p := rc_lists rest
    if required_ohlcv.all (fun c => hasCol df c) then p
    else (f :: p.1, (required_ohlcv.filter (fun c => !hasCol df c)) ++ p.2)

/-- The check `check_required_columns` (lines 161-179).  Building
`pd.DataFrame(result_dict)` raises `ValueError` when the two lists have
different lengths. -/
def check_required_columns (store : Store) : Except String (Option (List ReqRow)) :=
  let p := rc_lists store
  if p.1.length = p.2.length then
    let rows := (p.1.zip p.2).map (fun q => ReqRow.mk q.1 q.2)
    .ok (if rows.isEmpty then none else some rows)
  else .error "All arrays must be of the same length"

/-! ## check_missing_factor -/

/-- One row of the missing-factor finding table (lines 183-187). -/
structure FactorRow where
  instrument : String
  missing_factor_col : Bool
  missing_factor_data : Bool
deriving DecidableEq

/-- Line 190: the hard-coded index codes exempt from the factor check. -/
def index_codes : List String :=
  ["000300", "000903", "000905", "^TWII", "TWII"]

/-- Line 194: `any(index_code in str(filename) for index_code in index_codes)`. -/
def is_index (filename : String) : Bool :=
  index_codes.any (fun code => strContains filename code)

/-- Lines 203-205: set `missing_factor_data` at the first row whose
instrument matches (the parallel lists of the source are fused into rows). -/
def update_factor_data : List FactorRow → String → List FactorRow
  | [], _ => []
  | r :: rs, f =>
    if r.instrument == f then ⟨r.instrument, r.missing_factor_col, true⟩ :: rs
    else r :: update_factor_data rs f

/-- The loop of lines 192-209, carrying the accumulated rows. -/
def mf_loop : Store → List FactorRow → List FactorRow
  | [], acc => acc
  | (f, df) :: rest, acc =>
    if is_index f then mf_loop rest acc
    else
      match getCol df "factor" with
      | none => mf_loop rest (acc ++ [⟨f, true, false⟩])
      | some vals =>
        if allNull vals then
          if f ∈ acc.map FactorRow.instrument then mf_loop rest (update_factor_data acc f)
          else mf_loop rest (acc ++ [⟨f, false, true⟩])
        else mf_loop rest acc

/-- The check `check_missing_factor` (lines 181-216); it never raises. -/
def check_missing_factor (store : Store) : Except String (Option (List FactorRow)) :=
  let rows := mf_loop store []
  .ok (if rows.isEmpty then none else some rows)

/-- The per-entry behaviour of the factor loop; equals `mf_loop` when the
store's keys are distinct, making the update branch of lines 203-205
unreachable. -/
def mf_simple : Store → List FactorRow
  | [] => []
  | (f, df) :: rest =>
    if is_index f then mf_simple rest
    else
      match getCol df "factor" with
      | none => ⟨f, true, false⟩ :: mf_simple rest
      | some vals =>
        if allNull vals then ⟨f, false, true⟩ :: mf_simple rest
        else mf_simple rest

/-! ## check_data and configuration -/

/-- The checker's check-relevant configuration surface (`__init__`,
lines 21-38; `freq` only affects loading, and `csv_path`/`qlib_dir` are
handled by `init_checker`). -/
structure Config where
  large_step_threshold_price : ℚ
  large_step_threshold_volume : ℚ
  missing_data_num : ℕ
deriving DecidableEq

/-- The defaults of `__init__`. -/
def default_config : Config :=
  ⟨1 / 2, 3, 0⟩

/-- The four results gathered by `check_data` (lines 219-222). -/
structure Report where
  missing_data_result : Option (List MissingRow)
  large_step_result : Option (List LSRow)
  required_columns_result : Option (List ReqRow)
  missing_factor_result : Option (List FactorRow)
deriving DecidableEq

/-- Lines 224-229: `has_issues`. -/
def has_issues (r : Report) : Bool :=
  r.missing_data_result.isSome || r.large_step_result.isSome ||
    r.required_columns_result.isSome || r.missing_factor_result.isSome

/-- The runner `check_data` (lines 218-249): the four checks run in source
order; an exception in one aborts the run. -/
def check_data (store : Store) (cfg : Config) : Except String Report :=
  match check_missing_data store cfg.missing_data_num with
  | .error e => .error e
  | .ok md =>
    match check_large_step_changes store cfg.large_step_threshold_price
        cfg.large_step_threshold_volume with
    | .error e => .error e
    | .ok ls =>
      match check_required_columns store with
      | .error e => .error e
      | .ok rc =>
        match check_missing_factor store with
        | .error e => .error e
        | .ok mf => .ok ⟨md, ls, rc, mf⟩

/-! ## State-passing wrappers

None of the check methods assigns to `self.data`; each is embedded as a
wrapper that returns its result together with the (unchanged) store it read,
so that idempotence and non-mutation are statements, not conventions. -/

/-- The check `check_missing_data` with the surviving store made explicit. -/
def check_missing_data_s (store : Store) (tol : ℕ) :
    Except String (Option (List MissingRow)) × Store :=
  (check_missing_data store tol, store)

/-- The check `check_large_step_changes` with the surviving store made
explicit. -/
def check_large_step_changes_s (store : Store) (thrP thrV : ℚ) :
    Except String (Option (List LSRow)) × Store :=
  (check_large_step_changes store thrP thrV, store)

/-- The check `check_required_columns` with the surviving store made
explicit. -/
def check_required_columns_s (store : Store) :
    Except String (Option (List ReqRow)) × Store :=
  (check_required_columns store, store)

/-- The check `check_missing_factor` with the surviving store made
explicit. -/
def check_missing_factor_s (store : Store) :
    Except String (Option (List FactorRow)) × Store :=
  (check_missing_factor store, store)

/-- The runner `check_data` threading the store through the four checks in
source order, with early exit on an exception. -/
def check_data_s (store : Store) (cfg : Config) : Except String Report × Store :=
  match check_missing_data_s store cfg.missing_data_num with
  | (.error e, s1) => (.error e, s1)
  | (.ok md, s1) =>
    match check_large_step_changes_s s1 cfg.large_step_threshold_price
        cfg.large_step_threshold_volume with
    | (.error e, s2) => (.error e, s2)
    | (.ok ls, s2) =>
      match check_required_columns_s s2 with
      | (.error e, s3) => (.error e, s3)
      | (.ok rc, s3) =>
        match check_missing_factor_s s3 with
        | (.error e, s4) => (.error e, s4)
        | (.ok mf, s4) => (.ok ⟨md, ls, rc, mf⟩, s4)

/-! ## Constructor validation -/

/-- Python truthiness of an optional string argument (`None` and `""` are
falsy). -/
def truthy : Option String → Bool
  | none => false
  | some s => decide (s ≠ "")

/-- The two asserts of `__init__` (lines 30-31), in source order. -/
def init_checker (csv_path qlib_dir : Option String) : Except String Unit :=
  if truthy csv_path || truthy qlib_dir then
    if truthy csv_path && truthy qlib_dir then
      .error "Only one of csv_path or qlib_dir should be provided."
    else .ok ()
  else .error "One of csv_path or qlib_dir should be provided."

/-! ## load_qlib_data -/

/-- Lines 87-97: the provider-native field names mapped to canonical ones. -/
def rename1 (c : String) : String :=
  if c == "$open" then "open"
  else if c == "$close" then "close"
  else if c == "$low" then "low"
  else if c == "$high" then "high"
  else if c == "$volume" then "volume"
  else if c == "$factor" then "factor"
  else c

/-- Apply `df.rename(columns=..., inplace=True)`. -/
def rename_columns (df : DataFrame) : DataFrame :=
  ⟨df.dates, df.cols.map (fun p => (rename1 p.1, p.2))⟩

/-- Lines 84-101: per-instrument loading; a failing instrument is logged
and skipped (`except Exception: continue`). -/
def load_store (features : String → Except String DataFrame) :
    List String → Store
  | [] => []
  | i :: rest =>
    match features i with
    | .ok df => (i, rename_columns df) :: load_store features rest
    | .error _ => load_store features rest

/-- Lines 53-79: resolve the instrument universe.  The provider abstracts
`D.instruments` with `D.list_instruments`; an unresolvable market yields the
qlib `ValueError` whose message names the missing `<market>.txt` file.
The fallback chain runs only when the primary failure names `all.txt`, and
when every fallback fails the ORIGINAL error is re-raised (`raise e`). -/
def load_universe (provider : String → Except String (List String)) :
    Except String (String × List String) :=
  match provider "all" with
  | .ok l => .ok ("all", l)
  | .error e =>
    if strContains e "all.txt" then
      match provider "twii" with
      | .ok l => .ok ("twii", l)
      | .error _ =>
        match provider "tw50" with
        | .ok l => .ok ("tw50", l)
        | .error _ =>
          match provider "twmidcap" with
          | .ok l => .ok ("twmidcap", l)
          | .error _ => .error e
    else .error e

/-- The loader `load_qlib_data` (lines 51-103): the first component records
the market that was used (the `logger.info` lines) or the raised error; the
second is `self.data` afterwards, which remains empty when the load
raises. -/
def load_qlib_data (provider : String → Except String (List String))
    (features : String → Except String DataFrame) :
    Except String String × Store :=
  match load_universe provider with
  | .error e => (.error e, [])
  | .ok m => (.ok m.1, load_store features m.2)

/-! ## Concrete fixtures used by counterexamples and witnesses -/

/-- The series of the spec's worked large-step example: `close = [100, 101, 250]`. -/
def c2_store : Store :=
  [("TEST", ⟨["2024-01-01", "2024-01-02", "2024-01-03"],
    [("close", [some 100, some 101, some 250])]⟩)]

/-- A series with clean OHLCV columns and an all-null `factor` column. -/
def factor_null_df : DataFrame :=
  ⟨["d1"],
   [("open", [some 1]), ("high", [some 1]), ("low", [some 1]),
    ("close", [some 1]), ("volume", [some 1]), ("factor", [none])]⟩

/-- A series holding only a `close` column (no nulls). -/
def close_only_df : DataFrame :=
  ⟨["d1"], [("close", [some 1])]⟩

/-- A store whose single series lacks `open`, `high`, `low` and `volume`. -/
def close_only_store : Store :=
  [("B", close_only_df)]

/-- A store whose single series lacks exactly the `volume` column. -/
def no_volume_store : Store :=
  [("C", ⟨["d1"],
    [("open", [some 1]), ("high", [some 1]), ("low", [some 1]), ("close", [some 1])]⟩)]

/-- A complete series with one null in `close`, paired with a series that
lacks four required columns: the first check finds data missing, the third
raises building its table. -/
def mixed_store : Store :=
  [("A", ⟨["d1", "d2"],
    [("open", [some 1, some 1]), ("high", [some 1, some 1]), ("low", [some 1, some 1]),
     ("close", [some 1, none]), ("volume", [some 1, some 1])]⟩),
   ("B", close_only_df)]

/-- A fully healthy single-series store. -/
def clean_store : Store :=
  [("OK", ⟨["d1"],
    [("open", [some 1]), ("high", [some 1]), ("low", [some 1]),
     ("close", [some 1]), ("volume", [some 1]), ("factor", [some 1])]⟩)]

/-- A complete series whose only defect is one null in `open`. -/
def open_null_store : Store :=
  [("A", ⟨["d1"],
    [("open", [none]), ("high", [some 1]), ("low", [some 1]),
     ("close", [some 1]), ("volume", [some 1])]⟩)]

/-- Exempt series and non-exempt series, both without a `factor` column. -/
def exemption_store : Store :=
  [("TWII", close_only_df), ("2330", close_only_df)]

/-- One series lacking the factor column, one whose factor is all null. -/
def factor_pair_store : Store :=
  [("A", close_only_df), ("B", ⟨["d1"], [("close", [some 1]), ("factor", [none])]⟩)]

/-- A provider whose broad market cannot be resolved and whose second
fallback resolves. -/
def fallback_provider : String → Except String (List String) :=
  fun m => if m == "tw50" then .ok ["2330"] else .error (m ++ ".txt not found")

/-- A features call that always succeeds with a one-column frame. -/
def fallback_features : String → Except String DataFrame :=
  fun _ => .ok ⟨["d1"], [("$close", [some 1])]⟩

/-! ## Helper lemmas -/

/-- The state-passing aggregate run returns exactly the pure run's result
together with the untouched store. -/
theorem check_data_s_eq (store : Store) (cfg : Config) :
    check_data_s store cfg = (check_data store cfg, store) := by
  unfold check_data_s check_data check_missing_data_s check_large_step_changes_s
    check_required_columns_s check_missing_factor_s
  rcases check_missing_data store cfg.missing_data_num with e | md
  · rfl
  · dsimp only
    rcases check_large_step_changes store cfg.large_step_threshold_price
      cfg.large_step_threshold_volume with e | ls
    · rfl
    · dsimp only
      rcases check_required_columns store with e | rc
      · rfl
      · dsimp only
        rcases check_missing_factor store with e | mf <;> rfl

/-- A per-column null count is retrievable exactly when the column exists. -/
theorem nullCountFor_ok_iff (df : DataFrame) (c : String) :
    (∃ n, nullCountFor df c = .ok n) ↔ hasCol df c = true := by
  rcases h : getCol df c with _ | vals <;> simp [nullCountFor, hasCol, h]

/-- A successfully built missing-data row carries the instrument it was
built for, and certifies that all five OHLCV columns exist. -/
theorem md_row_ok_has_all (f : String) (df : DataFrame) (r : MissingRow)
    (h : md_row f df = .ok r) : r.instrument = f ∧ has_all_ohlcv df = true := by
  unfold md_row at h
  rcases h1 : nullCountFor df "open" with e | o
  · simp only [h1] at h
    exact Except.noConfusion h
  · simp only [h1] at h
    rcases h2 : nullCountFor df "high" with e | o2
    · simp only [h2] at h
      exact Except.noConfusion h
    · simp only [h2] at h
      rcases h3 : nullCountFor df "low" with e | o3
      · simp only [h3] at h
        exact Except.noConfusion h
      · simp only [h3] at h
        rcases h4 : nullCountFor df "close" with e | o4
        · simp only [h4] at h
          exact Except.noConfusion h
        · simp only [h4] at h
          rcases h5 : nullCountFor df "volume" with e | o5
          · simp only [h5] at h
            exact Except.noConfusion h
          · simp only [h5] at h
            injection h with h
            subst h
            refine ⟨rfl, ?_⟩
            simp only [has_all_ohlcv, required_ohlcv, List.all_cons, List.all_nil,
              Bool.and_true, Bool.and_eq_true]
            rw [← nullCountFor_ok_iff, ← nullCountFor_ok_iff, ← nullCountFor_ok_iff,
              ← nullCountFor_ok_iff, ← nullCountFor_ok_iff]
            exact ⟨⟨_, h1⟩, ⟨_, h2⟩, ⟨_, h3⟩, ⟨_, h4⟩, ⟨_, h5⟩⟩

/-- When all five OHLCV columns exist the per-instrument row builds. -/
theorem md_row_ok_of_has_all (f : String) (df : DataFrame)
    (hall : has_all_ohlcv df = true) : ∃ r, md_row f df = .ok r := by
  simp only [has_all_ohlcv, required_ohlcv, List.all_cons, List.all_nil,
    Bool.and_true, Bool.and_eq_true] at hall
  obtain ⟨a1, a2, a3, a4, a5⟩ := hall
  obtain ⟨n1, h1⟩ := (nullCountFor_ok_iff df "open").mpr a1
  obtain ⟨n2, h2⟩ := (nullCountFor_ok_iff df "high").mpr a2
  obtain ⟨n3, h3⟩ := (nullCountFor_ok_iff df "low").mpr a3
  obtain ⟨n4, h4⟩ := (nullCountFor_ok_iff df "close").mpr a4
  obtain ⟨n5, h5⟩ := (nullCountFor_ok_iff df "volume").mpr a5
  refine ⟨⟨f, n1, n2, n3, n4, n5⟩, ?_⟩
  unfold md_row
  rw [h1, h2, h3, h4, h5]

/-- Every row the missing-data loop emits belongs to a flagged series. -/
theorem md_rows_ok_mem (tol : ℕ) :
    ∀ (store : Store) (rows : List MissingRow), md_rows store tol = .ok rows →
      ∀ r ∈ rows, ∃ df, (r.instrument, df) ∈ store ∧
        0 < (missing_data_columns df tol).length := by
  intro store
  induction store with
  | nil =>
    intro rows h r hr
    simp only [md_rows] at h
    injection h with h
    subst h
    simp at hr
  | cons p rest ih =>
    intro rows h r hr
    obtain ⟨f, df⟩ := p
    simp only [md_rows] at h
    split at h
    · rename_i hflag
      split at h
      · exact Except.noConfusion h
      · rename_i r0 hrow
        split at h
        · exact Except.noConfusion h
        · rename_i rs hrs
          injection h with h
          subst h
          rcases List.mem_cons.mp hr with rfl | hr2
          · obtain ⟨hinst, -⟩ := md_row_ok_has_all f df r hrow
            refine ⟨df, ?_, hflag⟩
            rw [hinst]
            exact List.mem_cons_self _ _
          · obtain ⟨df2, hm, hflag2⟩ := ih rs hrs r hr2
            exact ⟨df2, List.mem_cons_of_mem _ hm, hflag2⟩
    · obtain ⟨df2, hm, hflag2⟩ := ih rows h r hr
      exact ⟨df2, List.mem_cons_of_mem _ hm, hflag2⟩

/-- When the missing-data loop returns normally, every flagged series had
all five OHLCV columns. -/
theorem md_rows_ok_flagged_has_all (tol : ℕ) :
    ∀ (store : Store) (rows : List MissingRow), md_rows store tol = .ok rows →
      ∀ f df, (f, df) ∈ store → 0 < (missing_data_columns df tol).length →
        has_all_ohlcv df = true := by
  intro store
  induction store with
  | nil =>
    intro rows h f df hm
    simp at hm
  | cons p rest ih =>
    intro rows h f df hm hflag
    obtain ⟨g, dg⟩ := p
    simp only [md_rows] at h
    rcases List.mem_cons.mp hm with heq | hm2
    · obtain ⟨rfl, rfl⟩ := Prod.mk.inj heq
      split at h
      · split at h
        · exact Except.noConfusion h
        · rename_i r0 hrow
          exact (md_row_ok_has_all f df r0 hrow).2
      · rename_i hnflag
        exact absurd hflag hnflag
    · split at h
      · split at h
        · exact Except.noConfusion h
        · rename_i r0 hrow
          split at h
          · exact Except.noConfusion h
          · rename_i rs hrs
            exact ih rs hrs f df hm2 hflag
      · exact ih rows h f df hm2 hflag

/-- When every flagged series has all five OHLCV columns, the missing-data
loop returns normally. -/
theorem md_rows_ok_of_all (tol : ℕ) : ∀ (store : Store),
    (∀ f df, (f, df) ∈ store → 0 < (missing_data_columns df tol).length →
      has_all_ohlcv df = true) →
    ∃ rows, md_rows store tol = .ok rows := by
  intro store
  induction store with
  | nil => exact fun _ => ⟨[], rfl⟩
  | cons p rest ih =>
    intro hall
    obtain ⟨f, df⟩ := p
    obtain ⟨rs, hrs⟩ := ih (fun g dg hm hf => hall g dg (List.mem_cons_of_mem _ hm) hf)
    by_cases hflag : 0 < (missing_data_columns df tol).length
    · obtain ⟨r0, hrow⟩ := md_row_ok_of_has_all f df
        (hall f df (List.mem_cons_self _ _) hflag)
      exact ⟨r0 :: rs, by simp only [md_rows, if_pos hflag, hrow, hrs]⟩
    · exact ⟨rs, by simp only [md_rows, if_neg hflag]; exact hrs⟩

/-- The missing-data check returns normally exactly when every flagged
series has all five OHLCV columns. -/
theorem check_missing_data_ok_iff (store : Store) (tol : ℕ) :
    (∃ v, check_missing_data store tol = .ok v) ↔
      ∀ f df, (f, df) ∈ store → 0 < (missing_data_columns df tol).length →
        has_all_ohlcv df = true := by
  constructor
  · rintro ⟨v, hv⟩ f df hm hflag
    unfold check_missing_data at hv
    split at hv
    · exact Except.noConfusion hv
    · rename_i rows heq
      exact md_rows_ok_flagged_has_all tol store rows heq f df hm hflag
  · intro hall
    obtain ⟨rows, hrows⟩ := md_rows_ok_of_all tol store hall
    exact ⟨_, by unfold check_missing_data; rw [hrows]⟩

/-- A series is flagged exactly when some of its columns has more nulls
than the tolerance. -/
theorem flagged_iff (df : DataFrame) (tol : ℕ) :
    0 < (missing_data_columns df tol).length ↔
      ∃ p ∈ df.cols, tol < nullCount p.2 := by
  simp [missing_data_columns, List.length_pos, List.filter_eq_nil_iff]

/-- An `Except` value is an error exactly when it is not a success. -/
theorem except_error_iff_not_ok {α β : Type} (x : Except α β) :
    (∃ e, x = .error e) ↔ ¬∃ v, x = .ok v := by
  cases x <;> simp

/-- A finding table is produced exactly when the loop ran and found rows. -/
theorem check_missing_data_ok_some (store : Store) (tol : ℕ) (rows : List MissingRow)
    (h : check_missing_data store tol = .ok (some rows)) :
    md_rows store tol = .ok rows := by
  unfold check_missing_data at h
  split at h
  · exact Except.noConfusion h
  · rename_i rs heq
    injection h with h
    split at h
    · exact Option.noConfusion h
    · injection h with h
      subst h
      exact heq

/-- In a store with distinct keys, a key determines its table. -/
theorem store_nodup_eq : ∀ (l : Store), (l.map Prod.fst).Nodup →
    ∀ {f : String} {a b : DataFrame}, (f, a) ∈ l → (f, b) ∈ l → a = b := by
  intro l
  induction l with
  | nil =>
    intro _ f a b ha
    simp at ha
  | cons p rest ih =>
    intro hnd f a b ha hb
    obtain ⟨g, c⟩ := p
    simp only [List.map_cons, List.nodup_cons] at hnd
    obtain ⟨hg, hnd2⟩ := hnd
    rcases List.mem_cons.mp ha with h1 | h1
    · obtain ⟨rfl, rfl⟩ := Prod.mk.inj h1
      rcases List.mem_cons.mp hb with h2 | h2
      · exact ((Prod.mk.inj h2).2).symm
      · exact absurd (List.mem_map.mpr ⟨(f, b), h2, rfl⟩) hg
    · rcases List.mem_cons.mp hb with h2 | h2
      · obtain ⟨rfl, rfl⟩ := Prod.mk.inj h2
        exact absurd (List.mem_map.mpr ⟨(f, a), h1, rfl⟩) hg
      · exact ih hnd2 h1 h2

/-- Under distinct keys the factor loop ignores its accumulator updates and
behaves per entry. -/
theorem mf_loop_eq : ∀ (store : Store) (acc : List FactorRow),
    (store.map Prod.fst).Nodup →
    (∀ r ∈ acc, r.instrument ∉ store.map Prod.fst) →
    mf_loop store acc = acc ++ mf_simple store := by
  intro store
  induction store with
  | nil =>
    intro acc _ _
    simp [mf_loop, mf_simple]
  | cons p rest ih =>
    intro acc hnd hdisj
    obtain ⟨f, df⟩ := p
    simp only [List.map_cons, List.nodup_cons] at hnd
    obtain ⟨hf, hnd2⟩ := hnd
    have hdisj2 : ∀ r ∈ acc, r.instrument ∉ rest.map Prod.fst :=
      fun r hr hmem => hdisj r hr (List.mem_cons_of_mem _ hmem)
    by_cases hidx : is_index f = true
    · simp only [mf_loop, mf_simple, if_pos hidx]
      exact ih acc hnd2 hdisj2
    · rcases hfac : getCol df "factor" with _ | vals
      · simp only [mf_loop, mf_simple, if_neg hidx, hfac]
        have hstep : ∀ r ∈ acc ++ [(⟨f, true, false⟩ : FactorRow)],
            r.instrument ∉ rest.map Prod.fst := by
          intro r hr
          rcases List.mem_append.mp hr with h1 | h1
          · exact hdisj2 r h1
          · simp only [List.mem_singleton] at h1
            subst h1
            exact hf
        rw [ih _ hnd2 hstep]
        simp
      · by_cases hnull : allNull vals = true
        · have hnotin : f ∉ acc.map FactorRow.instrument := by
            intro hin
            obtain ⟨r, hr, hr2⟩ := List.mem_map.mp hin
            exact hdisj r hr (hr2 ▸ List.mem_cons_self _ _)
          simp only [mf_loop, mf_simple, if_neg hidx, hfac, if_pos hnull, if_neg hnotin]
          have hstep : ∀ r ∈ acc ++ [(⟨f, false, true⟩ : FactorRow)],
              r.instrument ∉ rest.map Prod.fst := by
            intro r hr
            rcases List.mem_append.mp hr with h1 | h1
            · exact hdisj2 r h1
            · simp only [List.mem_singleton] at h1
              subst h1
              exact hf
          rw [ih _ hnd2 hstep]
          simp
        · simp only [mf_loop, mf_simple, if_neg hidx, hfac, if_neg hnull]
          exact ih acc hnd2 hdisj2

/-- Every row of the per-entry factor result describes its series: either
the factor column is absent, or it is present and entirely null. -/
theorem mem_mf_simple : ∀ (store : Store) (r : FactorRow), r ∈ mf_simple store →
    is_index r.instrument = false ∧
    ((r.missing_factor_col = true ∧ r.missing_factor_data = false ∧
      ∃ df, (r.instrument, df) ∈ store ∧ getCol df "factor" = none) ∨
     (r.missing_factor_col = false ∧ r.missing_factor_data = true ∧
      ∃ df vals, (r.instrument, df) ∈ store ∧ getCol df "factor" = some vals ∧
        allNull vals = true)) := by
  intro store
  induction store with
  | nil =>
    intro r hr
    simp [mf_simple] at hr
  | cons p rest ih =>
    intro r hr
    obtain ⟨f, df⟩ := p
    by_cases hidx : is_index f = true
    · simp only [mf_simple, if_pos hidx] at hr
      obtain ⟨h1, h2⟩ := ih r hr
      refine ⟨h1, ?_⟩
      rcases h2 with ⟨a, b, df2, hm, hg⟩ | ⟨a, b, df2, vals, hm, hg, hn⟩
      · exact Or.inl ⟨a, b, df2, List.mem_cons_of_mem _ hm, hg⟩
      · exact Or.inr ⟨a, b, df2, vals, List.mem_cons_of_mem _ hm, hg, hn⟩
    · rcases hfac : getCol df "factor" with _ | vals
      · simp only [mf_simple, if_neg hidx, hfac] at hr
        rcases List.mem_cons.mp hr with rfl | hr2
        · exact ⟨by simpa using hidx,
            Or.inl ⟨rfl, rfl, df, List.mem_cons_self _ _, hfac⟩⟩
        · obtain ⟨h1, h2⟩ := ih r hr2
          refine ⟨h1, ?_⟩
          rcases h2 with ⟨a, b, df2, hm, hg⟩ | ⟨a, b, df2, vals2, hm, hg, hn⟩
          · exact Or.inl ⟨a, b, df2, List.mem_cons_of_mem _ hm, hg⟩
          · exact Or.inr ⟨a, b, df2, vals2, List.mem_cons_of_mem _ hm, hg, hn⟩
      · by_cases hnull : allNull vals = true
        · simp only [mf_simple, if_neg hidx, hfac, if_pos hnull] at hr
          rcases List.mem_cons.mp hr with rfl | hr2
          · exact ⟨by simpa using hidx,
              Or.inr ⟨rfl, rfl, df, vals, List.mem_cons_self _ _, hfac, hnull⟩⟩
          · obtain ⟨h1, h2⟩ := ih r hr2
            refine ⟨h1, ?_⟩
            rcases h2 with ⟨a, b, df2, hm, hg⟩ | ⟨a, b, df2, vals2, hm, hg, hn⟩
            · exact Or.inl ⟨a, b, df2, List.mem_cons_of_mem _ hm, hg⟩
            · exact Or.inr ⟨a, b, df2, vals2, List.mem_cons_of_mem _ hm, hg, hn⟩
        · simp only [mf_simple, if_neg hidx, hfac, if_neg hnull] at hr
          obtain ⟨h1, h2⟩ := ih r hr
          refine ⟨h1, ?_⟩
          rcases h2 with ⟨a, b, df2, hm, hg⟩ | ⟨a, b, df2, vals2, hm, hg, hn⟩
          · exact Or.inl ⟨a, b, df2, List.mem_cons_of_mem _ hm, hg⟩
          · exact Or.inr ⟨a, b, df2, vals2, List.mem_cons_of_mem _ hm, hg, hn⟩

/-- A non-exempt series with no factor column yields its row in the
per-entry factor result. -/
theorem mf_simple_mem_of_no_factor : ∀ (store : Store) (f : String) (df : DataFrame),
    (f, df) ∈ store → is_index f = false → getCol df "factor" = none →
    (⟨f, true, false⟩ : FactorRow) ∈ mf_simple store := by
  intro store
  induction store with
  | nil =>
    intro f df hm
    simp at hm
  | cons p rest ih =>
    intro f df hm hidx hfac
    obtain ⟨g, dg⟩ := p
    rcases List.mem_cons.mp hm with h1 | h1
    · obtain ⟨rfl, rfl⟩ := Prod.mk.inj h1
      have hcond : ¬(is_index f = true) := by simp [hidx]
      simp only [mf_simple, if_neg hcond, hfac]
      exact List.mem_cons_self _ _
    · have hmem := ih f df h1 hidx hfac
      by_cases hidx2 : is_index g = true
      · simp only [mf_simple, if_pos hidx2]
        exact hmem
      · rcases hfac2 : getCol dg "factor" with _ | vals
        · simp only [mf_simple, if_neg hidx2, hfac2]
          exact List.mem_cons_of_mem _ hmem
        · by_cases hnull : allNull vals = true
          · simp only [mf_simple, if_neg hidx2, hfac2, if_pos hnull]
            exact List.mem_cons_of_mem _ hmem
          · simp only [mf_simple, if_neg hidx2, hfac2, if_neg hnull]
            exact hmem

/-- Under distinct keys the factor check is the per-entry result. -/
theorem check_missing_factor_eq (store : Store) (hnd : (store.map Prod.fst).Nodup) :
    check_missing_factor store
      = .ok (if (mf_simple store).isEmpty then none else some (mf_simple store)) := by
  unfold check_missing_factor
  rw [mf_loop_eq store [] hnd (by simp)]
  simp

/-- A factor finding table is exactly the per-entry result. -/
theorem check_missing_factor_ok_some (store : Store) (rows : List FactorRow)
    (hnd : (store.map Prod.fst).Nodup)
    (h : check_missing_factor store = .ok (some rows)) :
    rows = mf_simple store := by
  rw [check_missing_factor_eq store hnd] at h
  injection h with h
  split at h
  · exact Option.noConfusion h
  · injection h with h
    exact h.symm

/-- A produced missing-data finding table is never empty. -/
theorem check_missing_data_some_ne_nil (store : Store) (tol : ℕ)
    (rows : List MissingRow) (h : check_missing_data store tol = .ok (some rows)) :
    rows ≠ [] := by
  unfold check_missing_data at h
  split at h
  · exact Except.noConfusion h
  · injection h with h
    split at h
    · exact Option.noConfusion h
    · rename_i hempty
      injection h with h
      subst h
      simpa [List.isEmpty_iff] using hempty

/-- A produced large-step finding table is never empty. -/
theorem check_large_step_changes_some_ne_nil (store : Store) (thrP thrV : ℚ)
    (rows : List LSRow)
    (h : check_large_step_changes store thrP thrV = .ok (some rows)) :
    rows ≠ [] := by
  unfold check_large_step_changes at h
  split at h
  · exact Except.noConfusion h
  · injection h with h
    split at h
    · exact Option.noConfusion h
    · rename_i hempty
      injection h with h
      subst h
      simpa [List.isEmpty_iff] using hempty

/-- A produced required-columns finding table is never empty. -/
theorem check_required_columns_some_ne_nil (store : Store) (rows : List ReqRow)
    (h : check_required_columns store = .ok (some rows)) : rows ≠ [] := by
  unfold check_required_columns at h
  dsimp only at h
  split at h
  · injection h with h
    split at h
    · exact Option.noConfusion h
    · rename_i hempty
      injection h with h
      subst h
      simpa [List.isEmpty_iff] using hempty
  · exact Except.noConfusion h

/-- A produced missing-factor finding table is never empty. -/
theorem check_missing_factor_some_ne_nil (store : Store) (rows : List FactorRow)
    (h : check_missing_factor store = .ok (some rows)) : rows ≠ [] := by
  unfold check_missing_factor at h
  injection h with h
  split at h
  · exact Option.noConfusion h
  · rename_i hempty
    injection h with h
    subst h
    simpa [List.isEmpty_iff] using hempty

/-- A successful aggregate run records exactly the four checks' results. -/
theorem check_data_ok_parts (store : Store) (cfg : Config) (r : Report)
    (h : check_data store cfg = .ok r) :
    check_missing_data store cfg.missing_data_num = .ok r.missing_data_result ∧
    check_large_step_changes store cfg.large_step_threshold_price
      cfg.large_step_threshold_volume = .ok r.large_step_result ∧
    check_required_columns store = .ok r.required_columns_result ∧
    check_missing_factor store = .ok r.missing_factor_result := by
  unfold check_data at h
  split at h
  · exact Except.noConfusion h
  · rename_i md hmd
    split at h
    · exact Except.noConfusion h
    · rename_i ls hls
      split at h
      · exact Except.noConfusion h
      · rename_i rc hrc
        split at h
        · exact Except.noConfusion h
        · rename_i mf hmf
          injection h with h
          subst h
          exact ⟨hmd, hls, hrc, hmf⟩

/-! ## Claims -/

/-- C1 (counterexample): a series whose OHLCV columns hold no nulls at all
is still flagged by `check_missing_data` when its `factor` column is null —
the code scans every column of the frame, not only OHLCV. -/
theorem c1_counterexample :
    check_missing_data [("A", factor_null_df)] 0 = .ok (some [⟨"A", 0, 0, 0, 0, 0⟩]) ∧
    ∀ c ∈ required_ohlcv, (getCol factor_null_df c).map nullCount = some 0 :=
  ⟨rfl, by decide⟩

/-- C1 (amended): for every store with distinct keys and every tolerance,
when `check_missing_data` returns a finding table, a series with no nulls
in ANY of its columns (OHLCV, factor or otherwise) has no finding, and a
series is flagged only when some column of it — not necessarily an OHLCV
column — has more nulls than the tolerance. -/
theorem c1_missing_data_scans_all_columns (store : Store) (tol : ℕ)
    (rows : List MissingRow) (hnd : (store.map Prod.fst).Nodup)
    (h : check_missing_data store tol = .ok (some rows)) :
    (∀ f df, (f, df) ∈ store → (∀ p ∈ df.cols, nullCount p.2 ≤ tol) →
      ∀ r ∈ rows, r.instrument ≠ f) ∧
    (∀ r ∈ rows, ∃ df, (r.instrument, df) ∈ store ∧
      ∃ p ∈ df.cols, tol < nullCount p.2) := by
  have hmd := check_missing_data_ok_some store tol rows h
  have hmem := md_rows_ok_mem tol store rows hmd
  constructor
  · intro f df hdf hclean r hr hinst
    obtain ⟨df2, hm2, hflag2⟩ := hmem r hr
    rw [hinst] at hm2
    obtain rfl : df2 = df := store_nodup_eq store hnd hm2 hdf
    obtain ⟨p, hp, hcnt⟩ := (flagged_iff df2 tol).mp hflag2
    exact absurd hcnt (not_lt.mpr (hclean p hp))
  · intro r hr
    obtain ⟨df, hm, hflag⟩ := hmem r hr
    exact ⟨df, hm, (flagged_iff df tol).mp hflag⟩

/-- C1 witness: a complete series with one null in `open` is flagged, and
the theorem's conclusions hold at that store. -/
theorem c1_missing_data_scans_all_columns_witness :
    ((open_null_store.map Prod.fst).Nodup ∧
      check_missing_data open_null_store 0 = .ok (some [⟨"A", 1, 0, 0, 0, 0⟩])) ∧
    ((∀ f df, (f, df) ∈ open_null_store → (∀ p ∈ df.cols, nullCount p.2 ≤ 0) →
        ∀ r ∈ [(⟨"A", 1, 0, 0, 0, 0⟩ : MissingRow)], r.instrument ≠ f) ∧
      (∀ r ∈ [(⟨"A", 1, 0, 0, 0, 0⟩ : MissingRow)],
        ∃ df, (r.instrument, df) ∈ open_null_store ∧
          ∃ p ∈ df.cols, 0 < nullCount p.2)) :=
  ⟨⟨by decide, rfl⟩,
    c1_missing_data_scans_all_columns open_null_store 0 _ (by decide) rfl⟩

/-- C2 (counterexample): on `close = [100, 101, 250]` with price threshold
1/2 the code flags `close` with maximum absolute percentage change
`149/101`, which is not the `150/101` asserted by the claim's
parenthetical. -/
theorem c2_counterexample :
    check_large_step_changes c2_store (1 / 2) 3
      = .ok (some [⟨"TEST", "close", "2024-01-03", 149 / 101⟩]) ∧
    (149 / 101 : ℚ) ≠ 150 / 101 := by
  constructor
  · with_unfolding_all rfl
  · with_unfolding_all decide

/-- C2 (amended): on `close = [100, 101, 250]` with price threshold 1/2,
the large-step check flags `close` with maximum absolute percentage change
`149/101 = (250-101)/101 = 1.4752...` and reports the date of the second
transition; the first observation has no defined change and the first
transition's change `1/100` is below threshold. -/
theorem c2_large_step_close_series :
    check_large_step_changes c2_store (1 / 2) 3
      = .ok (some [⟨"TEST", "close", "2024-01-03", 149 / 101⟩]) ∧
    ((250 : ℚ) - 101) / 101 = 149 / 101 ∧
    pct_change_list [some 100, some 101, some 250]
      = [none, some (1 / 100), some (149 / 101)] ∧
    ¬((1 / 2 : ℚ) < 1 / 100) ∧ ((1 / 2 : ℚ) < 149 / 101) := by
  refine ⟨?_, ?_, ?_, ?_, ?_⟩
  · with_unfolding_all rfl
  · norm_num
  · with_unfolding_all rfl
  · with_unfolding_all decide
  · with_unfolding_all decide

/-- C3 (counterexample): the factor-check exemption list is the hard-coded
constant `index_codes`; a series such as "SPX", which no configuration of
the checker can exempt, is flagged, while the hard-coded "TWII" is skipped
even though no configuration names it. -/
theorem c3_counterexample :
    check_missing_factor [("SPX", close_only_df)] = .ok (some [⟨"SPX", true, false⟩]) ∧
    is_index "SPX" = false ∧
    index_codes = ["000300", "000903", "000905", "^TWII", "TWII"] ∧
    check_missing_factor [("TWII", close_only_df)] = .ok none :=
  ⟨rfl, rfl, rfl, rfl⟩

/-- C3 (amended): the exemption list is the hard-coded constant
`["000300", "000903", "000905", "^TWII", "TWII"]` (matched by substring),
not a configuration input; every series whose identifier matches it is
skipped regardless of factor state, and a non-exempt series with no factor
column produces a finding with `missing_factor_col = True`. -/
theorem c3_factor_exemption_hardcoded (store : Store) (f : String) (df : DataFrame)
    (hnd : (store.map Prod.fst).Nodup) (hmem : (f, df) ∈ store) :
    index_codes = ["000300", "000903", "000905", "^TWII", "TWII"] ∧
    (is_index f = true → ∀ rows, check_missing_factor store = .ok (some rows) →
      ∀ r ∈ rows, r.instrument ≠ f) ∧
    (is_index f = false → getCol df "factor" = none →
      ∃ rows, check_missing_factor store = .ok (some rows) ∧
        (⟨f, true, false⟩ : FactorRow) ∈ rows) := by
  refine ⟨rfl, ?_, ?_⟩
  · intro hidx rows h r hr hrf
    obtain rfl := check_missing_factor_ok_some store rows hnd h
    have h1 := (mem_mf_simple store r hr).1
    rw [hrf, hidx] at h1
    exact Bool.noConfusion h1
  · intro hidx hfac
    have hmem2 := mf_simple_mem_of_no_factor store f df hmem hidx hfac
    have hne : ¬((mf_simple store).isEmpty = true) := by
      simp only [List.isEmpty_iff]
      exact List.ne_nil_of_mem hmem2
    refine ⟨mf_simple store, ?_, hmem2⟩
    rw [check_missing_factor_eq store hnd, if_neg hne]

/-- C3 witness: in a store holding the exempt "TWII" and the non-exempt
"2330", both without factor columns, the theorem applies to "2330". -/
theorem c3_factor_exemption_hardcoded_witness :
    ((exemption_store.map Prod.fst).Nodup ∧
      ("2330", close_only_df) ∈ exemption_store) ∧
    (index_codes = ["000300", "000903", "000905", "^TWII", "TWII"] ∧
      (is_index "2330" = true → ∀ rows,
        check_missing_factor exemption_store = .ok (some rows) →
        ∀ r ∈ rows, r.instrument ≠ "2330") ∧
      (is_index "2330" = false → getCol close_only_df "factor" = none →
        ∃ rows, check_missing_factor exemption_store = .ok (some rows) ∧
          (⟨"2330", true, false⟩ : FactorRow) ∈ rows)) :=
  ⟨⟨by decide, by decide⟩,
    c3_factor_exemption_hardcoded exemption_store "2330" close_only_df
      (by decide) (by decide)⟩

/-- C4 (code evaluated at the failing input): a series lacking only
`volume` is reported with `volume` as its missing column and yields no
large-step finding; but a series lacking `volume` together with other
required columns makes `check_required_columns` raise the pandas length
mismatch instead of reporting, because the source appends one entry to
`instruments` and several to `missing_col`. -/
theorem c4_missing_volume_eval :
    check_required_columns no_volume_store = .ok (some [⟨"C", "volume"⟩]) ∧
    check_large_step_changes no_volume_store (1 / 2) 3 = .ok none ∧
    check_required_columns close_only_store
      = .error "All arrays must be of the same length" ∧
    check_large_step_changes close_only_store (1 / 2) 3 = .ok none := by
  refine ⟨rfl, ?_, rfl, ?_⟩ <;> with_unfolding_all rfl

/-- C5 (counterexample): in a store where the missing-data check returns a
non-empty finding table but a later check raises, `check_data` reports
neither pass nor issues — it propagates the exception — so the claimed
equivalence fails for this store. -/
theorem c5_counterexample :
    check_missing_data mixed_store 0 = .ok (some [⟨"A", 0, 0, 0, 1, 0⟩]) ∧
    default_config.missing_data_num = 0 ∧
    check_data mixed_store default_config
      = .error "All arrays must be of the same length" :=
  ⟨rfl, rfl, by with_unfolding_all rfl⟩

/-- C5 (amended): whenever the aggregate run completes (returns a report),
it reports no issues exactly when all four checks return `None`, and it
reports issues exactly when at least one check returns a finding table —
and any returned finding table is non-empty. -/
theorem c5_pass_iff_no_findings (store : Store) (cfg : Config) (r : Report)
    (h : check_data store cfg = .ok r) :
    (has_issues r = false ↔
      (check_missing_data store cfg.missing_data_num = .ok none ∧
        check_large_step_changes store cfg.large_step_threshold_price
          cfg.large_step_threshold_volume = .ok none ∧
        check_required_columns store = .ok none ∧
        check_missing_factor store = .ok none)) ∧
    (has_issues r = true ↔
      ((∃ rows, check_missing_data store cfg.missing_data_num = .ok (some rows)) ∨
        (∃ rows, check_large_step_changes store cfg.large_step_threshold_price
          cfg.large_step_threshold_volume = .ok (some rows)) ∨
        (∃ rows, check_required_columns store = .ok (some rows)) ∨
        (∃ rows, check_missing_factor store = .ok (some rows)))) ∧
    (∀ rows, check_missing_data store cfg.missing_data_num = .ok (some rows) →
      rows ≠ []) ∧
    (∀ rows, check_large_step_changes store cfg.large_step_threshold_price
      cfg.large_step_threshold_volume = .ok (some rows) → rows ≠ []) ∧
    (∀ rows, check_required_columns store = .ok (some rows) → rows ≠ []) ∧
    (∀ rows, check_missing_factor store = .ok (some rows) → rows ≠ []) := by
  rcases r with ⟨md, ls, rc, mf⟩
  obtain ⟨hmd, hls, hrc, hmf⟩ := check_data_ok_parts store cfg _ h
  refine ⟨?_, ?_,
    fun rows hr => check_missing_data_some_ne_nil store _ rows hr,
    fun rows hr => check_large_step_changes_some_ne_nil store _ _ rows hr,
    fun rows hr => check_required_columns_some_ne_nil store rows hr,
    fun rows hr => check_missing_factor_some_ne_nil store rows hr⟩
  · rw [hmd, hls, hrc, hmf]
    cases md <;> cases ls <;> cases rc <;> cases mf <;> simp [has_issues]
  · rw [hmd, hls, hrc, hmf]
    cases md <;> cases ls <;> cases rc <;> cases mf <;> simp [has_issues]

/-- C5 witness: on a fully healthy store the aggregate run returns the
all-`None` report and the equivalences hold at that instance. -/
theorem c5_pass_iff_no_findings_witness :
    check_data clean_store default_config = .ok ⟨none, none, none, none⟩ ∧
    ((has_issues ⟨none, none, none, none⟩ = false ↔
      (check_missing_data clean_store default_config.missing_data_num = .ok none ∧
        check_large_step_changes clean_store default_config.large_step_threshold_price
          default_config.large_step_threshold_volume = .ok none ∧
        check_required_columns clean_store = .ok none ∧
        check_missing_factor clean_store = .ok none)) ∧
    (has_issues ⟨none, none, none, none⟩ = true ↔
      ((∃ rows, check_missing_data clean_store default_config.missing_data_num
          = .ok (some rows)) ∨
        (∃ rows, check_large_step_changes clean_store
          default_config.large_step_threshold_price
          default_config.large_step_threshold_volume = .ok (some rows)) ∨
        (∃ rows, check_required_columns clean_store = .ok (some rows)) ∨
        (∃ rows, check_missing_factor clean_store = .ok (some rows)))) ∧
    (∀ rows, check_missing_data clean_store default_config.missing_data_num
      = .ok (some rows) → rows ≠ []) ∧
    (∀ rows, check_large_step_changes clean_store
      default_config.large_step_threshold_price
      default_config.large_step_threshold_volume = .ok (some rows) → rows ≠ []) ∧
    (∀ rows, check_required_columns clean_store = .ok (some rows) → rows ≠ []) ∧
    (∀ rows, check_missing_factor clean_store = .ok (some rows) → rows ≠ [])) :=
  ⟨by with_unfolding_all rfl,
    c5_pass_iff_no_findings clean_store default_config ⟨none, none, none, none⟩
      (by with_unfolding_all rfl)⟩

/-- C6: when the primary market fails to resolve (with the qlib error
naming `all.txt`), the loader takes the first fallback market that
resolves, records it, and populates the store from it; when every fallback
fails the original error is surfaced and the store remains empty. -/
theorem c6_loader_fallback (provider : String → Except String (List String))
    (features : String → Except String DataFrame) (e : String)
    (hall : provider "all" = .error e)
    (htxt : strContains e "all.txt" = true) :
    (∀ l, provider "twii" = .ok l →
      load_qlib_data provider features = (.ok "twii", load_store features l)) ∧
    (∀ e1 l, provider "twii" = .error e1 → provider "tw50" = .ok l →
      load_qlib_data provider features = (.ok "tw50", load_store features l)) ∧
    (∀ e1 e2 l, provider "twii" = .error e1 → provider "tw50" = .error e2 →
      provider "twmidcap" = .ok l →
      load_qlib_data provider features = (.ok "twmidcap", load_store features l)) ∧
    (∀ e1 e2 e3, provider "twii" = .error e1 → provider "tw50" = .error e2 →
      provider "twmidcap" = .error e3 →
      load_qlib_data provider features = (.error e, [])) := by
  refine ⟨?_, ?_, ?_, ?_⟩
  · intro l h1
    unfold load_qlib_data load_universe
    rw [hall, h1]
    simp [htxt]
  · intro e1 l h1 h2
    unfold load_qlib_data load_universe
    rw [hall, h1, h2]
    simp [htxt]
  · intro e1 e2 l h1 h2 h3
    unfold load_qlib_data load_universe
    rw [hall, h1, h2, h3]
    simp [htxt]
  · intro e1 e2 e3 h1 h2 h3
    unfold load_qlib_data load_universe
    rw [hall, h1, h2, h3]
    simp [htxt]

/-- C6 witness: the primary market fails with an `all.txt` error, `twii`
fails, `tw50` resolves; the loader records `tw50` and loads its
instruments. -/
theorem c6_loader_fallback_witness :
    (fallback_provider "all" = .error "all.txt not found" ∧
      strContains "all.txt not found" "all.txt" = true) ∧
    ((∀ l, fallback_provider "twii" = .ok l →
        load_qlib_data fallback_provider fallback_features
          = (.ok "twii", load_store fallback_features l)) ∧
      (∀ e1 l, fallback_provider "twii" = .error e1 →
        fallback_provider "tw50" = .ok l →
        load_qlib_data fallback_provider fallback_features
          = (.ok "tw50", load_store fallback_features l)) ∧
      (∀ e1 e2 l, fallback_provider "twii" = .error e1 →
        fallback_provider "tw50" = .error e2 →
        fallback_provider "twmidcap" = .ok l →
        load_qlib_data fallback_provider fallback_features
          = (.ok "twmidcap", load_store fallback_features l)) ∧
      (∀ e1 e2 e3, fallback_provider "twii" = .error e1 →
        fallback_provider "tw50" = .error e2 →
        fallback_provider "twmidcap" = .error e3 →
        load_qlib_data fallback_provider fallback_features
          = (.error "all.txt not found", []))) :=
  ⟨⟨rfl, rfl⟩,
    c6_loader_fallback fallback_provider fallback_features "all.txt not found" rfl rfl⟩

/-- C7: construction fails when neither of `csv_path`/`qlib_dir` is
supplied and when both are; with exactly one (truthy) source it does not
fail. -/
theorem c7_exactly_one_source (s t : String) (hs : s ≠ "") (ht : t ≠ "") :
    init_checker none none
      = .error "One of csv_path or qlib_dir should be provided." ∧
    init_checker (some s) (some t)
      = .error "Only one of csv_path or qlib_dir should be provided." ∧
    init_checker (some s) none = .ok () ∧
    init_checker none (some t) = .ok () := by
  refine ⟨rfl, ?_, ?_, ?_⟩ <;> simp [init_checker, truthy, hs, ht]

/-- C7 witness: instantiated at `csv_path = "data"`, `qlib_dir = "qlib"`. -/
theorem c7_exactly_one_source_witness :
    (("data" : String) ≠ "" ∧ ("qlib" : String) ≠ "") ∧
    (init_checker none none
        = .error "One of csv_path or qlib_dir should be provided." ∧
      init_checker (some "data") (some "qlib")
        = .error "Only one of csv_path or qlib_dir should be provided." ∧
      init_checker (some "data") none = .ok () ∧
      init_checker none (some "qlib") = .ok ()) :=
  ⟨⟨by decide, by decide⟩, c7_exactly_one_source "data" "qlib" (by decide) (by decide)⟩

/-- C8: running the aggregate check (and each individual check) twice on an
unchanged store yields identical results, and no check mutates the store. -/
theorem c8_idempotent_checks (store : Store) (cfg : Config) :
    (check_data_s store cfg).2 = store ∧
    check_data_s (check_data_s store cfg).2 cfg = check_data_s store cfg ∧
    (check_missing_data_s store cfg.missing_data_num).2 = store ∧
    check_missing_data_s (check_missing_data_s store cfg.missing_data_num).2
        cfg.missing_data_num
      = check_missing_data_s store cfg.missing_data_num ∧
    (check_large_step_changes_s store cfg.large_step_threshold_price
        cfg.large_step_threshold_volume).2 = store ∧
    check_large_step_changes_s
        (check_large_step_changes_s store cfg.large_step_threshold_price
          cfg.large_step_threshold_volume).2
        cfg.large_step_threshold_price cfg.large_step_threshold_volume
      = check_large_step_changes_s store cfg.large_step_threshold_price
          cfg.large_step_threshold_volume ∧
    (check_required_columns_s store).2 = store ∧
    check_required_columns_s (check_required_columns_s store).2
      = check_required_columns_s store ∧
    (check_missing_factor_s store).2 = store ∧
    check_missing_factor_s (check_missing_factor_s store).2
      = check_missing_factor_s store := by
  refine ⟨?_, ?_, rfl, rfl, rfl, rfl, rfl, rfl, rfl, rfl⟩
  · simp [check_data_s_eq]
  · simp [check_data_s_eq]

/-- C9: under distinct keys, every row of a missing-factor finding table
has exactly one of its two flags set: `(True, False)` for a series lacking
the factor column, `(False, True)` for a series whose factor column is
present but entirely null. -/
theorem c9_factor_flags_exclusive (store : Store) (rows : List FactorRow)
    (hnd : (store.map Prod.fst).Nodup)
    (h : check_missing_factor store = .ok (some rows)) :
    ∀ r ∈ rows,
      (r.missing_factor_col = true ∧ r.missing_factor_data = false ∧
        ∃ df, (r.instrument, df) ∈ store ∧ getCol df "factor" = none) ∨
      (r.missing_factor_col = false ∧ r.missing_factor_data = true ∧
        ∃ df vals, (r.instrument, df) ∈ store ∧ getCol df "factor" = some vals ∧
          allNull vals = true) := by
  intro r hr
  obtain rfl := check_missing_factor_ok_some store rows hnd h
  exact (mem_mf_simple store r hr).2

/-- C9 witness: one series lacking the factor column and one with an
all-null factor column produce exactly the two row shapes. -/
theorem c9_factor_flags_exclusive_witness :
    ((factor_pair_store.map Prod.fst).Nodup ∧
      check_missing_factor factor_pair_store
        = .ok (some [⟨"A", true, false⟩, ⟨"B", false, true⟩])) ∧
    (∀ r ∈ [(⟨"A", true, false⟩ : FactorRow), ⟨"B", false, true⟩],
      (r.missing_factor_col = true ∧ r.missing_factor_data = false ∧
        ∃ df, (r.instrument, df) ∈ factor_pair_store ∧ getCol df "factor" = none) ∨
      (r.missing_factor_col = false ∧ r.missing_factor_data = true ∧
        ∃ df vals, (r.instrument, df) ∈ factor_pair_store ∧
          getCol df "factor" = some vals ∧ allNull vals = true)) :=
  ⟨⟨by decide, rfl⟩,
    c9_factor_flags_exclusive factor_pair_store _ (by decide) rfl⟩

/-- C10: `check_missing_data` raises a key-lookup error exactly when some
series is flagged (a column with more nulls than the tolerance) yet lacks
one of the five OHLCV columns; it returns normally exactly when every
flagged series has all five. -/
theorem c10_missing_data_key_error (store : Store) (tol : ℕ) :
    (∃ e, check_missing_data store tol = .error e) ↔
      ∃ f df, (f, df) ∈ store ∧ (∃ p ∈ df.cols, tol < nullCount p.2) ∧
        has_all_ohlcv df = false := by
  rw [except_error_iff_not_ok, check_missing_data_ok_iff]
  push_neg
  constructor
  · rintro ⟨f, df, hm, hflag, hno⟩
    exact ⟨f, df, hm, (flagged_iff df tol).mp hflag, by simpa using hno⟩
  · rintro ⟨f, df, hm, hflag, hno⟩
    exact ⟨f, df, hm, (flagged_iff df tol).mpr hflag, by simp [hno]⟩

end DataHealth
